import Mathlib

/-!
Shallow embedding of the `ParallelTestRunner` scheduler
(`src/utils/ParallelTestRunner.ts` in the repository) together with the
supporting data types (`TestStatus`, `TestResult` from `src/core`).

The promise-based control flow of the source is modelled as a small-step
state machine: admission (`processNextBatch` / `admitLoop`) is the
synchronous part of the source's `processNextBatch`, and completion of an
in-flight task (`completeStep`) is the `.then` / `.catch` callback that
runs when a task's `executeTask` promise settles.  Which in-flight task
settles next is chosen by an explicit schedule (a list of indices into
the in-flight set), making the nondeterministic completion order an
explicit parameter.  Wall-clock time is modelled by a `Nat` clock; an
attempt admitted at clock `s` settles at the clock determined by the
environment (or at `s + timeout` when the deadline wins the race).
-/

namespace ParallelRunner

/-- `TestStatus` enum from `src/core/constants.ts`. -/
inductive TestStatus
  | passed
  | failed
  | skipped
  | pending
  | running
deriving DecidableEq, Repr

/-- `TestResult` interface from `src/core/types.ts` (the fields the runner
uses; `error` is modelled by its message). -/
structure TestResult where
  name : String
  status : TestStatus
  duration : Nat
  startTime : Nat
  endTime : Nat
  error : Option String := none
deriving DecidableEq, Repr

/-- `TestTask` interface: `id`, `name`, an opaque handle `testFn` standing
for the asynchronous work closure, the optional `retryCount`, and the
optional `result` set on finalization. -/
structure TestTask where
  id : String
  name : String
  testFn : Nat
  retryCount : Option Nat := none
  result : Option TestResult := none
deriving DecidableEq, Repr

/-- JavaScript `task.retryCount || 0`. -/
def orZero : Option Nat → Nat
  | none => 0
  | some n => n

/-- `Required<ParallelTestOptions>`: the resolved option record held by the
runner. -/
structure Options where
  maxWorkers : Nat
  timeout : Nat
  failFast : Bool
  retryFailedTests : Bool
  maxRetries : Nat
deriving DecidableEq, Repr

/-- `ParallelTestOptions`: the caller-supplied partial options. -/
structure ParallelTestOptions where
  maxWorkers : Option Nat := none
  timeout : Option Nat := none
  failFast : Option Bool := none
  retryFailedTests : Option Bool := none
  maxRetries : Option Nat := none

/-- The constructor's defaulting (`{ defaults, ...options }`), with the cpu
count an explicit parameter (`os.cpus().length`). -/
def resolveOptions (numCpus : Nat) (o : ParallelTestOptions) : Options :=
  { maxWorkers := o.maxWorkers.getD (max 1 (numCpus - 1))
    timeout := o.timeout.getD 30000
    failFast := o.failFast.getD false
    retryFailedTests := o.retryFailedTests.getD true
    maxRetries := o.maxRetries.getD 1 }

/-- How one invocation of a task's `testFn` behaves, as observed by
`executeTask`'s `Promise.race`: it settles with a result after `d` ms,
rejects after `d` ms, never settles, or an unexpected error outside the
tracked `try` block makes `executeTask`'s own promise reject. -/
inductive ExecOutcome
  | settles (d : Nat) (r : TestResult)
  | throws (d : Nat) (e : String)
  | neverSettles
  | unexpected (e : String)
deriving DecidableEq, Repr

/-- The environment: the behaviour of each work handle on each attempt
(indexed by the task's `retryCount` at admission). -/
structure ExecEnv where
  outcome : Nat → Nat → ExecOutcome

/-- How `executeTask`'s returned promise settles: fulfilled with a
`TestResult` (the `.then` path) or rejected (the `.catch` path of
`processTasks`), in both cases at a settle clock. -/
inductive ExecResult
  | normal (r : TestResult) (endClock : Nat)
  | rejected (e : String) (endClock : Nat)
deriving DecidableEq, Repr

/-- The failure `TestResult` synthesized in a `catch` block:
`startTime`/`endTime` are both `new Date()` at the moment the handler
runs, and `duration` is `0`. -/
def caughtFailure (name : String) (e : String) (now : Nat) : TestResult :=
  { name := name
    status := TestStatus.failed
    duration := 0
    startTime := now
    endTime := now
    error := some e }

/-- The message of the error rejected by the timeout promise. -/
def timeoutMessage (opts : Options) : String :=
  "Test timed out after " ++ toString opts.timeout ++ "ms"

/-- `executeTask` (lines 221-261): race `testFn()` against the timeout
promise; a work settlement strictly before the deadline wins the race,
otherwise the timeout error is raised and caught, producing the
synthesized failure.  A rejection of the work is likewise caught.  An
unexpected error makes the promise itself reject. -/
def executeTaskOutcome (opts : Options) (task : TestTask) (o : ExecOutcome)
    (startClock : Nat) : ExecResult :=
  match o with
  | ExecOutcome.settles d r =>
      if d < opts.timeout then ExecResult.normal r (startClock + d)
      else
        ExecResult.normal
          (caughtFailure task.name (timeoutMessage opts) (startClock + opts.timeout))
          (startClock + opts.timeout)
  | ExecOutcome.throws d e =>
      if d < opts.timeout then
        ExecResult.normal (caughtFailure task.name e (startClock + d)) (startClock + d)
      else
        ExecResult.normal
          (caughtFailure task.name (timeoutMessage opts) (startClock + opts.timeout))
          (startClock + opts.timeout)
  | ExecOutcome.neverSettles =>
      ExecResult.normal
        (caughtFailure task.name (timeoutMessage opts) (startClock + opts.timeout))
        (startClock + opts.timeout)
  | ExecOutcome.unexpected e => ExecResult.rejected e startClock

/-- Run summary computed at the end of `run()`. -/
structure Summary where
  total : Nat
  passed : Nat
  failed : Nat
  skipped : Nat
  duration : Nat
deriving DecidableEq, Repr

/-- Lifecycle events emitted through the `EventEmitter`. -/
inductive Event
  | runStart (totalTasks : Nat)
  | taskStart (task : TestTask)
  | taskEnd (task : TestTask) (result : TestResult)
  | runEnd (results : List TestResult) (summary : Summary)
deriving DecidableEq, Repr

/-- The scheduler's mutable state during `processTasks`: the pending queue
`tasks`, the in-flight map `runningTasks` (insertion-ordered, keyed by
task id, each entry carrying its admission clock), the `completedTasks`
and `failedTasks` lists, the emitted events, the current clock, and
whether the `processTasks` promise has been resolved. -/
structure SchedState where
  tasks : List TestTask
  runningTasks : List (TestTask × Nat)
  completedTasks : List TestTask
  failedTasks : List TestTask
  events : List Event
  clock : Nat
  resolved : Bool
deriving DecidableEq, Repr

/-- `Map.set(task.id, task)`: replace an existing entry with the same key,
otherwise append. -/
def mapSet : List (TestTask × Nat) → TestTask × Nat → List (TestTask × Nat)
  | [], e => [e]
  | x :: xs, e => if x.1.id = e.1.id then e :: xs else x :: mapSet xs e

/-- `Map.delete(id)`: remove the entry with the given key, if any. -/
def mapDelete : List (TestTask × Nat) → String → List (TestTask × Nat)
  | [], _ => []
  | x :: xs, i => if x.1.id = i then xs else x :: mapDelete xs i

/-- The admission `for` loop (lines 138-142 of the runner): shift up to
`n = availableSlots` tasks from the front of the queue into the in-flight
map, emitting `task:start` for each (the synchronous initial segment of
`executeTask`). -/
def admitLoop : Nat → SchedState → SchedState
  | 0, st => st
  | n + 1, st =>
      match st.tasks with
      | [] => st
      | task :: rest =>
          admitLoop n
            { st with
                tasks := rest
                runningTasks := mapSet st.runningTasks (task, st.clock)
                events := st.events ++ [Event.taskStart task] }

/-- The synchronous body of `processNextBatch` (lines 123-210): fail-fast
check, all-done check, then slot filling. -/
def processNextBatch (opts : Options) (st : SchedState) : SchedState :=
  if opts.failFast = true ∧ 0 < st.failedTasks.length then
    { st with resolved := true }
  else if st.tasks.length = 0 ∧ st.runningTasks.length = 0 then
    { st with resolved := true }
  else
    admitLoop (opts.maxWorkers - st.runningTasks.length) st

/-- The retried task built on the retry path: same `id`/`name`/`testFn`,
`retryCount` incremented. -/
def retryTaskOf (task : TestTask) : TestTask :=
  { task with retryCount := some (orZero task.retryCount + 1) }

/-- Finalization: store the result on the task, push it to
`completedTasks`, and also to `failedTasks` when the result is failed. -/
def finalizeTask (task : TestTask) (r : TestResult) (st : SchedState) : SchedState :=
  let doneTask := { task with result := some r }
  { st with
      completedTasks := st.completedTasks ++ [doneTask]
      failedTasks :=
        if r.status = TestStatus.failed then st.failedTasks ++ [doneTask]
        else st.failedTasks }

/-- The `.then` / `.catch` callback body for one settled attempt (lines
146-208), up to but not including the trailing `processNextBatch()` call:
remove the task from the in-flight map, apply the retry decision
(`unshift` the retried task, or finalize), and record `task:end` when the
promise was fulfilled (the `.catch` path emits no `task:end`). -/
def settleTask (opts : Options) (st : SchedState) (task : TestTask) :
    ExecResult → SchedState
  | ExecResult.normal r endClock =>
      let st1 :=
        { st with
            runningTasks := mapDelete st.runningTasks task.id
            events := st.events ++ [Event.taskEnd task r]
            clock := endClock }
      if r.status = TestStatus.failed ∧ opts.retryFailedTests = true
          ∧ orZero task.retryCount < opts.maxRetries then
        { st1 with tasks := retryTaskOf task :: st1.tasks }
      else
        finalizeTask task r st1
  | ExecResult.rejected e endClock =>
      let st1 :=
        { st with
            runningTasks := mapDelete st.runningTasks task.id
            clock := endClock }
      if opts.retryFailedTests = true ∧ orZero task.retryCount < opts.maxRetries then
        { st1 with tasks := retryTaskOf task :: st1.tasks }
      else
        finalizeTask task (caughtFailure task.name e endClock) st1

/-- Settle the `i`-th in-flight task according to the environment. -/
def settleStep (opts : Options) (env : ExecEnv) (st : SchedState) (i : Nat) :
    SchedState :=
  match st.runningTasks[i]? with
  | none => st
  | some (task, startClock) =>
      settleTask opts st task
        (executeTaskOutcome opts task
          (env.outcome task.testFn (orZero task.retryCount)) startClock)

/-- One completion event: the settled callback body followed by its
trailing `processNextBatch()` call. -/
def completeStep (opts : Options) (env : ExecEnv) (st : SchedState) (i : Nat) :
    SchedState :=
  match st.runningTasks[i]? with
  | none => st
  | some _ => processNextBatch opts (settleStep opts env st i)

/-- Drive completions in schedule order until the `processTasks` promise
resolves (at which point `run()` proceeds; later completions are not part
of the loop). -/
def runLoop (opts : Options) (env : ExecEnv) : List Nat → SchedState → SchedState
  | [], st => st
  | i :: rest, st =>
      if st.resolved = true then st
      else runLoop opts env rest (completeStep opts env st i)

/-- The fresh per-run state built at the top of `run()` (cleared in-flight
map and completed/failed lists, `run:start` emitted). -/
def startState (tasks : List TestTask) : SchedState :=
  { tasks := tasks
    runningTasks := []
    completedTasks := []
    failedTasks := []
    events := [Event.runStart tasks.length]
    clock := 0
    resolved := false }

/-- `task.result!` on a completed task. -/
def resultOf (t : TestTask) : TestResult :=
  t.result.getD (caughtFailure t.name "" 0)

/-- The summary computed at the end of `run()` (lines 104-110). -/
def summarize (results : List TestResult) : Summary :=
  { total := results.length
    passed := (results.filter (fun r => r.status = TestStatus.passed)).length
    failed := (results.filter (fun r => r.status = TestStatus.failed)).length
    skipped := (results.filter (fun r => r.status = TestStatus.skipped)).length
    duration := results.foldl (fun sum r => sum + r.duration) 0 }

/-- The `ParallelTestRunner` instance state visible across its methods. -/
structure Runner where
  options : Options
  tasks : List TestTask := []
  isRunning : Bool := false
deriving DecidableEq, Repr

/-- What `run()` hands back when the `processTasks` promise has resolved:
the returned results, the full event log (with `run:end` appended), and
the scheduler state at resolution. -/
structure RunOutput where
  results : List TestResult
  events : List Event
  finalState : SchedState
deriving DecidableEq, Repr

/-- `addTask` (lines 65-70): append with `retryCount: 0`; the method
performs no `isRunning` check and cannot fail. -/
def addTask (r : Runner) (id name : String) (testFn : Nat) :
    Except String Runner :=
  Except.ok
    { r with
        tasks := r.tasks ++
          [{ id := id, name := name, testFn := testFn, retryCount := some 0 }] }

/-- `clearTasks` (lines 266-274): throws while a run is in progress. -/
def clearTasks (r : Runner) : Except String Runner :=
  if r.isRunning = true then
    Except.error "Cannot clear tasks while test runner is running"
  else
    Except.ok { r with tasks := [] }

/-- `run()` (lines 83-116): throw when already running; otherwise reset
per-run state, emit `run:start`, run the admission loop and then the
completion loop over the given schedule.  If the schedule settles enough
attempts for `processTasks` to resolve, compute the results and summary,
emit `run:end`, and return the results; otherwise (`none`) the run is
still awaiting in-flight work. -/
def run (r : Runner) (env : ExecEnv) (schedule : List Nat) :
    Except String (Option RunOutput) :=
  if r.isRunning = true then Except.error "Test runner is already running"
  else
    let st1 := processNextBatch r.options (startState r.tasks)
    let st2 := runLoop r.options env schedule st1
    if st2.resolved = true then
      let results := st2.completedTasks.map resultOf
      Except.ok (some
        { results := results
          events := st2.events ++ [Event.runEnd results (summarize results)]
          finalState := st2 })
    else
      Except.ok none

/-- Projection of `run`'s value when it did not throw. -/
def okOut : Except String (Option RunOutput) → Option RunOutput
  | Except.ok o => o
  | Except.error _ => none

/-- The ids carried by the `task:start` events of a log, in order. -/
def taskStartIds (evs : List Event) : List String :=
  evs.filterMap (fun e =>
    match e with
    | Event.taskStart t => some t.id
    | _ => none)

/-! ## Concrete scenarios used by the claim theorems and witnesses -/

/-- A failed result produced by a work unit named "A". -/
def rA2 : TestResult :=
  { name := "A", status := TestStatus.failed, duration := 1, startTime := 0,
    endTime := 1, error := some "boom" }

/-- A passing result. -/
def rPass (n : String) : TestResult :=
  { name := n, status := TestStatus.passed, duration := 1, startTime := 0, endTime := 1 }

def optsC2 : Options :=
  { maxWorkers := 1, timeout := 100, failFast := true, retryFailedTests := false,
    maxRetries := 1 }

def envC2 : ExecEnv :=
  { outcome := fun fn _ =>
      if fn = 0 then ExecOutcome.settles 1 rA2 else ExecOutcome.settles 1 (rPass "x") }

def runnerC2 : Runner :=
  { options := optsC2
    tasks := [ { id := "A", name := "A", testFn := 0, retryCount := some 0 },
               { id := "B", name := "B", testFn := 1, retryCount := some 0 },
               { id := "C", name := "C", testFn := 2, retryCount := some 0 } ] }

def optsC3 : Options :=
  { maxWorkers := 2, timeout := 100, failFast := true, retryFailedTests := false,
    maxRetries := 1 }

/-- A's failed result in the fail-fast-with-in-flight scenario. -/
def rA3 : TestResult :=
  { name := "A", status := TestStatus.failed, duration := 1, startTime := 0,
    endTime := 1, error := some "boom" }

/-- B's passing result, which settles later than A's failure. -/
def rB3 : TestResult :=
  { name := "B", status := TestStatus.passed, duration := 5, startTime := 0, endTime := 5 }

def envC3 : ExecEnv :=
  { outcome := fun fn _ =>
      if fn = 0 then ExecOutcome.settles 1 rA3 else ExecOutcome.settles 5 rB3 }

def runnerC3 : Runner :=
  { options := optsC3
    tasks := [ { id := "A", name := "A", testFn := 0, retryCount := some 0 },
               { id := "B", name := "B", testFn := 1, retryCount := some 0 } ] }

/-- The scheduler state at the moment `run runnerC3` resolves: A finalized
as failed and fail-fast already triggered while B is still in flight. -/
def stC3 : SchedState :=
  runLoop optsC3 envC3 [0] (processNextBatch optsC3 (startState runnerC3.tasks))

def optsC4 : Options :=
  { maxWorkers := 1, timeout := 100, failFast := false, retryFailedTests := true,
    maxRetries := 1 }

def taskC4 : TestTask := { id := "T", name := "T", testFn := 0, retryCount := some 0 }

def optsC5 : Options :=
  { maxWorkers := 1, timeout := 100, failFast := false, retryFailedTests := true,
    maxRetries := 1 }

/-- A runner observed in the middle of a `run()` call. -/
def runnerMidRun : Runner := { options := optsC5, tasks := [], isRunning := true }

/-- An environment where no work unit ever settles. -/
def envTrivial : ExecEnv := { outcome := fun _ _ => ExecOutcome.neverSettles }

def optsC6 : Options :=
  { maxWorkers := 1, timeout := 100, failFast := false, retryFailedTests := false,
    maxRetries := 0 }

def taskC6 : TestTask := { id := "U", name := "U", testFn := 0, retryCount := some 0 }

def stC6 : SchedState := startState []

def rC6 : TestResult :=
  { name := "U", status := TestStatus.passed, duration := 1, startTime := 0, endTime := 1 }

/-- The always-failing result of the retried task. -/
def rF8 : TestResult :=
  { name := "T", status := TestStatus.failed, duration := 1, startTime := 0,
    endTime := 1, error := some "bad" }

def optsC8 : Options :=
  { maxWorkers := 1, timeout := 100, failFast := false, retryFailedTests := true,
    maxRetries := 2 }

def envC8 : ExecEnv := { outcome := fun _ _ => ExecOutcome.settles 1 rF8 }

def runnerC8 : Runner :=
  { options := optsC8
    tasks := [ { id := "T", name := "T", testFn := 0, retryCount := some 0 } ] }

def optsC9 : Options :=
  { maxWorkers := 1, timeout := 100, failFast := false, retryFailedTests := true,
    maxRetries := 1 }

def taskC9 : TestTask := { id := "T", name := "T", testFn := 0, retryCount := some 0 }

/-- The synthesized result actually produced when the work raises 50 ms
into an attempt that started at clock 0, with a 100 ms deadline. -/
def rC9 : TestResult :=
  { name := "T", status := TestStatus.failed, duration := 0, startTime := 50,
    endTime := 50, error := some "boom" }

/-- A placeholder result for instantiating universally quantified results. -/
def rDummy : TestResult :=
  { name := "D", status := TestStatus.passed, duration := 0, startTime := 0, endTime := 0 }

/-- A runner with an empty queue and fully defaulted options (4 cpus). -/
def runnerC10 : Runner := { options := resolveOptions 4 {}, tasks := [] }

def optsW1 : Options :=
  { maxWorkers := 1, timeout := 100, failFast := false, retryFailedTests := true,
    maxRetries := 0 }

def taskW1 : TestTask := { id := "W", name := "W", testFn := 0, retryCount := some 0 }

def rW1 : TestResult :=
  { name := "W", status := TestStatus.failed, duration := 1, startTime := 0,
    endTime := 1, error := some "x" }

def stW1 : SchedState := startState []

/-! ## Helper lemmas -/

theorem mapSet_length_le (m : List (TestTask × Nat)) (e : TestTask × Nat) :
    (mapSet m e).length ≤ m.length + 1 := by
  induction m with
  | nil => simp [mapSet]
  | cons x xs ih =>
      simp only [mapSet]
      split
      · simp
      · simpa using Nat.succ_le_succ ih

theorem mapDelete_length_le (m : List (TestTask × Nat)) (i : String) :
    (mapDelete m i).length ≤ m.length := by
  induction m with
  | nil => simp [mapDelete]
  | cons x xs ih =>
      simp only [mapDelete]
      split
      · simp [Nat.le_succ]
      · simpa using Nat.succ_le_succ ih

theorem admitLoop_length_le (n : Nat) (st : SchedState) :
    (admitLoop n st).runningTasks.length ≤ st.runningTasks.length + n := by
  induction n generalizing st with
  | zero => simp [admitLoop]
  | succ n ih =>
      cases h : st.tasks with
      | nil =>
          simp only [admitLoop, h]
          exact Nat.le_add_right _ _
      | cons t rest =>
          simp only [admitLoop, h]
          have h1 := ih { st with
            tasks := rest
            runningTasks := mapSet st.runningTasks (t, st.clock)
            events := st.events ++ [Event.taskStart t] }
          have h2 := mapSet_length_le st.runningTasks (t, st.clock)
          simp only at h1
          omega

theorem processNextBatch_length_le (opts : Options) (st : SchedState)
    (h : st.runningTasks.length ≤ opts.maxWorkers) :
    (processNextBatch opts st).runningTasks.length ≤ opts.maxWorkers := by
  unfold processNextBatch
  split
  · simpa using h
  · split
    · simpa using h
    · have h2 := admitLoop_length_le (opts.maxWorkers - st.runningTasks.length) st
      omega

theorem settleTask_runningTasks (opts : Options) (st : SchedState)
    (task : TestTask) (er : ExecResult) :
    (settleTask opts st task er).runningTasks = mapDelete st.runningTasks task.id := by
  cases er <;> simp only [settleTask] <;> split <;> simp [finalizeTask]

theorem settleStep_length_le (opts : Options) (env : ExecEnv) (st : SchedState)
    (i : Nat) :
    (settleStep opts env st i).runningTasks.length ≤ st.runningTasks.length := by
  unfold settleStep
  split
  · exact Nat.le_refl _
  · rw [settleTask_runningTasks]
    exact mapDelete_length_le _ _

theorem completeStep_length_le (opts : Options) (env : ExecEnv) (st : SchedState)
    (i : Nat) (h : st.runningTasks.length ≤ opts.maxWorkers) :
    (completeStep opts env st i).runningTasks.length ≤ opts.maxWorkers := by
  unfold completeStep
  split
  · exact h
  · exact processNextBatch_length_le _ _
      (Nat.le_trans (settleStep_length_le opts env st i) h)

theorem runLoop_length_le (opts : Options) (env : ExecEnv) (sched : List Nat)
    (st : SchedState) (h : st.runningTasks.length ≤ opts.maxWorkers) :
    (runLoop opts env sched st).runningTasks.length ≤ opts.maxWorkers := by
  induction sched generalizing st with
  | nil => exact h
  | cons i rest ih =>
      simp only [runLoop]
      split
      · exact h
      · exact ih _ (completeStep_length_le opts env st i h)

/-! ## Claim theorems -/

/-- C7: at every point during a run — after the initial admission pass of
`run()` and after every completion step the schedule performs — the number
of in-flight tasks never exceeds `maxWorkers`. -/
theorem c7_inflight_bound (opts : Options) (env : ExecEnv)
    (tasks : List TestTask) (sched : List Nat) :
    (runLoop opts env sched
        (processNextBatch opts (startState tasks))).runningTasks.length
      ≤ opts.maxWorkers :=
  runLoop_length_le opts env sched _
    (processNextBatch_length_le opts _ (by simp [startState]))

/-- C1: a finished attempt is requeued exactly when its result is failed,
`retryFailedTests` is enabled and the attempt count is strictly below
`maxRetries`; the requeued task keeps `id`/`name`/`testFn`, its attempt
count grows by one, and it lands at the front of the pending queue; with
`maxRetries = 0` every failure finalizes immediately. -/
theorem c1_retry_requeue_iff (opts : Options) (st : SchedState) (task : TestTask)
    (r : TestResult) (ec : Nat) :
    ((settleTask opts st task (ExecResult.normal r ec)).tasks
        = retryTaskOf task :: st.tasks
      ↔ r.status = TestStatus.failed ∧ opts.retryFailedTests = true
          ∧ orZero task.retryCount < opts.maxRetries)
    ∧ (retryTaskOf task).id = task.id
    ∧ (retryTaskOf task).name = task.name
    ∧ (retryTaskOf task).testFn = task.testFn
    ∧ orZero (retryTaskOf task).retryCount = orZero task.retryCount + 1
    ∧ (opts.maxRetries = 0 → r.status = TestStatus.failed →
        (settleTask opts st task (ExecResult.normal r ec)).tasks = st.tasks
        ∧ (settleTask opts st task (ExecResult.normal r ec)).completedTasks
            = st.completedTasks ++ [{ task with result := some r }]) := by
  have hne : st.tasks ≠ retryTaskOf task :: st.tasks := by
    intro h
    have hl := congrArg List.length h
    simp at hl
  refine ⟨?_, rfl, rfl, rfl, rfl, ?_⟩
  · by_cases hc : r.status = TestStatus.failed ∧ opts.retryFailedTests = true
        ∧ orZero task.retryCount < opts.maxRetries
    · simp only [settleTask, if_pos hc]
      exact iff_of_true trivial hc
    · simp only [settleTask, if_neg hc, finalizeTask]
      exact iff_of_false hne hc
  · intro hmr _
    have hc : ¬ (r.status = TestStatus.failed ∧ opts.retryFailedTests = true
        ∧ orZero task.retryCount < opts.maxRetries) :=
      fun h => Nat.not_lt_zero _ (hmr ▸ h.2.2)
    constructor
    · simp only [settleTask, if_neg hc, finalizeTask]
    · simp only [settleTask, if_neg hc, finalizeTask]

/-- C1 witness: with `maxRetries = 0` a failed attempt is finalized —
the queue is untouched and the task is appended to `completedTasks`. -/
theorem c1_retry_requeue_iff_witness :
    optsW1.maxRetries = 0 ∧ rW1.status = TestStatus.failed
    ∧ ((settleTask optsW1 stW1 taskW1 (ExecResult.normal rW1 1)).tasks = stW1.tasks
      ∧ (settleTask optsW1 stW1 taskW1 (ExecResult.normal rW1 1)).completedTasks
          = stW1.completedTasks ++ [{ taskW1 with result := some rW1 }]) :=
  ⟨rfl, rfl, (c1_retry_requeue_iff optsW1 stW1 taskW1 rW1 1).2.2.2.2.2 rfl rfl⟩

/-- C2: with `failFast = true`, `maxWorkers = 1`, retries disabled and
submitted tasks A (fails), B (succeeds), C (succeeds), once A finalizes as
failed no further task is admitted: the only `task:start` event is A's and
`run()` returns only A's result. -/
theorem c2_failFast_single_worker :
    (okOut (run runnerC2 envC2 [0, 0, 0])).map
        (fun o => (o.results, taskStartIds o.events))
      = some ([rA2], ["A"]) := by decide

/-- C3 counterexample: `maxWorkers = 2`, fail-fast enabled, A fails while B
is still in flight.  The run terminates (returning only A's result) while
B is still in the in-flight set — the in-flight task did not finish before
the run terminated, contradicting the claim. -/
theorem c3_failfast_inflight_counterexample :
    (okOut (run runnerC3 envC3 [0])).map
        (fun o => (o.results, o.finalState.runningTasks.length))
      = some ([rA3], 1) := by decide

/-- C3 amended: when fail-fast triggers while other tasks are in flight,
the run terminates immediately with exactly the results finalized at that
point; the in-flight tasks are not cancelled — their completions are still
processed afterwards (removed from the in-flight set and finalized) but
their results are not part of what `run()` returned. -/
theorem c3_failfast_inflight_amended :
    (okOut (run runnerC3 envC3 [0])).map (fun o => o.results) = some [rA3]
    ∧ stC3.resolved = true
    ∧ stC3.runningTasks.length = 1
    ∧ (completeStep optsC3 envC3 stC3 0).runningTasks = []
    ∧ (completeStep optsC3 envC3 stC3 0).completedTasks.map resultOf = [rA3, rB3]
    ∧ (completeStep optsC3 envC3 stC3 0).resolved = true := by decide

/-- C4 counterexample: a work unit that never settles under a 100 ms
deadline yields a failed result after 100 ms whose error message is
"Test timed out after 100ms" — not the claimed
"execution timed out after 100ms". -/
theorem c4_timeout_message_counterexample :
    executeTaskOutcome optsC4 taskC4 ExecOutcome.neverSettles 0
      = ExecResult.normal
          { name := "T", status := TestStatus.failed, duration := 0,
            startTime := 100, endTime := 100,
            error := some "Test timed out after 100ms" } 100
    ∧ (some "Test timed out after 100ms" : Option String)
        ≠ some "execution timed out after 100ms" := by decide

/-- C4 amended: when the deadline elapses before the work settles, the
executor synthesizes a failed result whose error message is
"Test timed out after {timeout}ms", settling at `start + timeout`; the
work's eventual outcome is discarded (a settlement at or after the
deadline produces the same timeout failure regardless of its result). -/
theorem c4_timeout_result_amended (opts : Options) (task : TestTask) (sc : Nat) :
    executeTaskOutcome opts task ExecOutcome.neverSettles sc
      = ExecResult.normal
          (caughtFailure task.name (timeoutMessage opts) (sc + opts.timeout))
          (sc + opts.timeout)
    ∧ (caughtFailure task.name (timeoutMessage opts) (sc + opts.timeout)).status
        = TestStatus.failed
    ∧ timeoutMessage opts
        = "Test timed out after " ++ toString opts.timeout ++ "ms"
    ∧ ∀ (d : Nat) (r : TestResult), opts.timeout ≤ d →
        executeTaskOutcome opts task (ExecOutcome.settles d r) sc
          = ExecResult.normal
              (caughtFailure task.name (timeoutMessage opts) (sc + opts.timeout))
              (sc + opts.timeout) := by
  refine ⟨rfl, rfl, rfl, fun d r h => ?_⟩
  simp only [executeTaskOutcome, if_neg (Nat.not_lt.mpr h)]

/-- C4 amended witness: a work settlement at 150 ms under a 100 ms
deadline is discarded in favour of the timeout failure. -/
theorem c4_timeout_result_amended_witness :
    optsC4.timeout ≤ 150
    ∧ executeTaskOutcome optsC4 taskC4 (ExecOutcome.settles 150 rDummy) 0
        = ExecResult.normal
            (caughtFailure taskC4.name (timeoutMessage optsC4) (0 + optsC4.timeout))
            (0 + optsC4.timeout) :=
  ⟨by decide, (c4_timeout_result_amended optsC4 taskC4 0).2.2.2 150 rDummy (by decide)⟩

/-- C5 counterexample: `addTask` performs no `isRunning` check — called on
a runner that is mid-run it appends the task and returns normally instead
of failing. -/
theorem c5_addTask_counterexample :
    runnerMidRun.isRunning = true
    ∧ addTask runnerMidRun "X" "X" 0
        = Except.ok { runnerMidRun with
            tasks := [{ id := "X", name := "X", testFn := 0, retryCount := some 0 }] } :=
  ⟨rfl, rfl⟩

/-- C5 amended: `run()` called while a run is in progress raises "Test
runner is already running" and `clearTasks()` raises its own precondition
error, both synchronously; `addTask`, however, performs no check and
always succeeds, even mid-run. -/
theorem c5_usage_errors_amended (r : Runner) (env : ExecEnv) (sched : List Nat)
    (h : r.isRunning = true) :
    run r env sched = Except.error "Test runner is already running"
    ∧ clearTasks r = Except.error "Cannot clear tasks while test runner is running"
    ∧ ∀ (id name : String) (fn : Nat), ∃ r2, addTask r id name fn = Except.ok r2 := by
  refine ⟨?_, ?_, fun id name fn => ⟨_, rfl⟩⟩
  · unfold run
    rw [if_pos h]
  · unfold clearTasks
    rw [if_pos h]

/-- C5 amended witness: a second `run()` on a mid-run runner fails with
the "already running" error. -/
theorem c5_usage_errors_amended_witness :
    runnerMidRun.isRunning = true
    ∧ run runnerMidRun envTrivial [] = Except.error "Test runner is already running" :=
  ⟨rfl, (c5_usage_errors_amended runnerMidRun envTrivial [] rfl).1⟩

/-- C6: every per-task failure is recovered locally: a work unit raising
before the deadline becomes a failed result carrying its error; a timeout
becomes a failed result; every settled attempt removes the task from the
in-flight set; an unexpected error outside the tracked work invocation
(the `.catch` path), with retries unavailable, finalizes the task with a
failed result carrying the error (also recorded in `failedTasks`); and
`run()` on a non-running runner never raises — it always returns
normally. -/
theorem c6_failure_capture (opts : Options) (st : SchedState) (task : TestTask)
    (sc d : Nat) (e : String) (r : TestResult) (ec : Nat) :
    (d < opts.timeout →
        executeTaskOutcome opts task (ExecOutcome.throws d e) sc
          = ExecResult.normal (caughtFailure task.name e (sc + d)) (sc + d)
        ∧ (caughtFailure task.name e (sc + d)).status = TestStatus.failed)
    ∧ executeTaskOutcome opts task ExecOutcome.neverSettles sc
        = ExecResult.normal
            (caughtFailure task.name (timeoutMessage opts) (sc + opts.timeout))
            (sc + opts.timeout)
    ∧ (settleTask opts st task (ExecResult.normal r ec)).runningTasks
        = mapDelete st.runningTasks task.id
    ∧ (settleTask opts st task (ExecResult.rejected e ec)).runningTasks
        = mapDelete st.runningTasks task.id
    ∧ (¬ (opts.retryFailedTests = true ∧ orZero task.retryCount < opts.maxRetries) →
        (settleTask opts st task (ExecResult.rejected e ec)).completedTasks
          = st.completedTasks
              ++ [{ task with result := some (caughtFailure task.name e ec) }]
        ∧ (settleTask opts st task (ExecResult.rejected e ec)).failedTasks
          = st.failedTasks
              ++ [{ task with result := some (caughtFailure task.name e ec) }])
    ∧ (∀ (r0 : Runner) (env : ExecEnv) (sched : List Nat),
        r0.isRunning = false → ∃ out, run r0 env sched = Except.ok out) := by
  refine ⟨fun h => ⟨?_, rfl⟩, rfl, settleTask_runningTasks opts st task _,
    settleTask_runningTasks opts st task _, fun hnr => ?_, fun r0 env sched h0 => ?_⟩
  · simp only [executeTaskOutcome, if_pos h]
  · constructor
    · simp [settleTask, if_neg hnr, finalizeTask]
    · simp [settleTask, if_neg hnr, finalizeTask, caughtFailure]
  · unfold run
    rw [if_neg (by simp [h0])]
    dsimp only
    split
    · exact ⟨_, rfl⟩
    · exact ⟨_, rfl⟩

/-- C6 witness: a work unit raising 5 ms into an attempt under a 100 ms
deadline is converted into a failed result carrying its error. -/
theorem c6_failure_capture_witness :
    (5 : Nat) < optsC6.timeout
    ∧ executeTaskOutcome optsC6 taskC6 (ExecOutcome.throws 5 "x") 0
        = ExecResult.normal (caughtFailure taskC6.name "x" (0 + 5)) (0 + 5) :=
  ⟨by decide, ((c6_failure_capture optsC6 stC6 taskC6 0 5 "x" rC6 7).1 (by decide)).1⟩

/-- C8: a single task with `retryFailedTests = true` and `maxRetries = 2`
whose work always fails is started exactly 3 times (`task:start` emitted
three times) and contributes exactly one failed result to `run()`'s
return. -/
theorem c8_three_attempts :
    (okOut (run runnerC8 envC8 [0, 0, 0])).map
        (fun o => (taskStartIds o.events, o.results))
      = some (["T", "T", "T"], [rF8]) := by decide

/-- C9 counterexample: a work unit that raises 50 ms into an attempt
started at clock 0 yields a synthesized result with
`startTime = endTime = 50` (the moment of synthesis) and `duration = 0`;
the claimed attempt-spanning timing (`startTime = 0`, `duration = 50`)
does not hold. -/
theorem c9_timing_counterexample :
    executeTaskOutcome optsC9 taskC9 (ExecOutcome.throws 50 "boom") 0
      = ExecResult.normal rC9 50
    ∧ ¬ (rC9.startTime = 0 ∧ rC9.duration = 50) := by decide

/-- C9 amended: a result the work itself produces is passed through with
its timing fields untouched, while every synthesized failed result — the
work raising, the timeout elapsing, or an unexpected executor error (the
rejected-promise path of the admission loop, lines 180-187) — carries
`startTime = endTime =` the moment of synthesis and `duration = 0`; it
does not span the attempt. -/
theorem c9_timing_amended (opts : Options) (task : TestTask) (sc d : Nat)
    (e : String) (r : TestResult) (st : SchedState) (ec : Nat) :
    (d < opts.timeout →
        executeTaskOutcome opts task (ExecOutcome.settles d r) sc
          = ExecResult.normal r (sc + d))
    ∧ (d < opts.timeout →
        executeTaskOutcome opts task (ExecOutcome.throws d e) sc
          = ExecResult.normal
              { name := task.name, status := TestStatus.failed, duration := 0,
                startTime := sc + d, endTime := sc + d, error := some e }
              (sc + d))
    ∧ executeTaskOutcome opts task ExecOutcome.neverSettles sc
        = ExecResult.normal
            { name := task.name, status := TestStatus.failed, duration := 0,
              startTime := sc + opts.timeout, endTime := sc + opts.timeout,
              error := some (timeoutMessage opts) }
            (sc + opts.timeout)
    ∧ (¬ (opts.retryFailedTests = true ∧ orZero task.retryCount < opts.maxRetries) →
        (settleTask opts st task (ExecResult.rejected e ec)).completedTasks
          = st.completedTasks
              ++ [{ task with result := some (caughtFailure task.name e ec) }])
    ∧ (caughtFailure task.name e ec).startTime = ec
    ∧ (caughtFailure task.name e ec).endTime = ec
    ∧ (caughtFailure task.name e ec).duration = 0
    ∧ (caughtFailure task.name e ec).status = TestStatus.failed
    ∧ (caughtFailure task.name e ec).error = some e := by
  refine ⟨fun h => ?_, fun h => ?_, rfl, fun hnr => ?_, rfl, rfl, rfl, rfl, rfl⟩
  · simp only [executeTaskOutcome, if_pos h]
  · simp only [executeTaskOutcome, if_pos h]
    rfl
  · simp [settleTask, if_neg hnr, finalizeTask, caughtFailure]

/-- C9 amended witness: the raise-at-50ms attempt yields the synthesized
settle-moment timing, and an unexpected executor error settling at clock
9 with retries unavailable finalizes the task with a synthesized result
timed at the moment of synthesis. -/
theorem c9_timing_amended_witness :
    ((50 : Nat) < optsC9.timeout
      ∧ executeTaskOutcome optsC9 taskC9 (ExecOutcome.throws 50 "boom") 0
          = ExecResult.normal
              { name := taskC9.name, status := TestStatus.failed, duration := 0,
                startTime := 0 + 50, endTime := 0 + 50, error := some "boom" }
              (0 + 50))
    ∧ (¬ (optsW1.retryFailedTests = true ∧ orZero taskW1.retryCount < optsW1.maxRetries)
      ∧ (settleTask optsW1 stW1 taskW1 (ExecResult.rejected "crash" 9)).completedTasks
          = stW1.completedTasks
              ++ [{ taskW1 with result := some (caughtFailure taskW1.name "crash" 9) }]) :=
  ⟨⟨by decide,
    (c9_timing_amended optsC9 taskC9 0 50 "boom" rDummy stW1 9).2.1 (by decide)⟩,
   ⟨by decide,
    (c9_timing_amended optsW1 taskW1 0 0 "crash" rDummy stW1 9).2.2.2.1 (by decide)⟩⟩

/-- C10: running with an empty queue succeeds without an error: it emits
`run:start` with 0 total tasks and `run:end` with an empty results list
and an all-zero summary, and returns an empty results list. -/
theorem c10_empty_run :
    (okOut (run runnerC10 envTrivial [])).map (fun o => (o.results, o.events))
      = some ([],
          [Event.runStart 0,
           Event.runEnd []
             { total := 0, passed := 0, failed := 0, skipped := 0, duration := 0 }]) := by
  decide

end ParallelRunner
